import Mathlib

/-!
Verification of the route-safety engine in `src/app.py` (Streamlit app
"Route Safety Commander").  The pure logic of the program is embedded
shallowly below: the numeric extractor `get_int`, the wind-chill
calculator `calculate_wind_chill`, the per-hour hazard evaluator
`analyze_hour` (lines 165-257 of `app.py`), the alert classifier
(`fetch_active_alerts`'s filtering step and the WARNING/ADVISORY scoring
of the processing loop), and the per-date aggregation pipeline
(lines 284-398) as `run_request`.

Modelling conventions:
* Python `int` becomes `Int` (risk scores) or `Nat` (wind speeds, which
  `get_int` always returns non-negative); Python floats become `Real`
  with `Real.rpow` for `math.pow`.
* A forecast row (`dict`) becomes the structure `Obs`; a field that the
  code reads with `row.get(k, default)` becomes an `Option` field, with
  the same default applied at the use site.  `startTime` is kept as the
  already-parsed pair (formatted date string, hour of day); `none`
  stands for a missing or unparseable timestamp, which the code handles
  with `try/except` (skip the row / skip the sun-glare block).
* Network fetches are passed in as functions `String → List _`
  (url ↦ rows, coordinate-string ↦ raw alert events); the code's
  `except: return []` failure mode is the empty list.
-/

namespace Helana

/-- Python's substring test `needle in hay` on the underlying character
lists (used for every `"..." in short_forecast` check in `app.py`). -/
def occurs_chars (needle : List Char) : List Char → Bool
  | [] => needle.isPrefixOf []
  | c :: cs => needle.isPrefixOf (c :: cs) || occurs_chars needle cs

/-- Python's `needle in hay` for strings. -/
def occurs_str (needle hay : String) : Bool :=
  occurs_chars needle.data hay.data

/-- Python's `str.lower()` (character-wise lowercasing; the forecast
and alert texts are ASCII). -/
def py_lower (s : String) : String :=
  ⟨s.data.map Char.toLower⟩

/-- Python's `str.upper()`. -/
def py_upper (s : String) : String :=
  ⟨s.data.map Char.toUpper⟩

/-- A heterogeneous forecast field value as `get_int` (app.py lines
141-145) receives it: absent (`None` / missing key default), a plain
string such as `"15 mph"`, a JSON number, or a structured object
carrying a `value` entry. -/
inductive RawVal where
  | none
  | str (s : String)
  | num (n : Int)
  | obj (value : RawVal)
  deriving DecidableEq

/-- Python's `str(val)` for the value shapes above.  (`str` of a dict
renders the whole `{'value': ...}` literal; its first digit run is the
digit run of the carried value, which is all `get_int` looks at, so we
render the carried value directly.) -/
def py_str : RawVal → String
  | .none => "None"
  | .str s => s
  | .num n => toString n
  | .obj v => py_str v

/-- The first maximal run of digit characters, as matched by
`re.findall(r'\d+', s)[0]`. -/
def first_digit_run : List Char → List Char
  | [] => []
  | c :: cs => if c.isDigit then c :: cs.takeWhile Char.isDigit else first_digit_run cs

/-- Digit characters to the number they denote (Python `int` of a digit
string). -/
def digits_to_nat (ds : List Char) : Nat :=
  ds.foldl (fun acc c => 10 * acc + (c.toNat - 48)) 0

/-- `get_int` (app.py lines 141-145): `None` maps to 0, a
`{'value': ...}` object is unwrapped once, and the first embedded digit
run of `str(val)` is returned, defaulting to 0. -/
def get_int (val : RawVal) : Nat :=
  match val with
  | .none => 0
  | .obj v => match first_digit_run (py_str v).data with
    | [] => 0
    | ds => digits_to_nat ds
  | v => match first_digit_run (py_str v).data with
    | [] => 0
    | ds => digits_to_nat ds

/-- One hourly forecast row as consumed by `analyze_hour` and the
processing loop.  `startTime` is the parsed timestamp as the pair
(`dt.strftime('%A, %b %d')`, `dt.hour`). -/
structure Obs where
  startTime : Option (String × Nat)
  temperature : Option Int
  shortForecast : Option String
  windDirection : Option String
  isDaytime : Option Bool
  windSpeed : RawVal
  windGust : RawVal
  probabilityOfPrecipitation : RawVal
  deriving DecidableEq

/-- `calculate_wind_chill` (app.py lines 160-163).  The `None`
short-circuit of line 161 corresponds to absent inputs, which the typed
arguments exclude; the remaining guard and formula are verbatim:
temperatures above 50 °F or winds below 3 mph return the temperature
unchanged, otherwise the NWS wind-chill approximation is computed with
`math.pow(speed, 0.16)`. -/
noncomputable def calculate_wind_chill (temp_f : Int) (speed_mph : Nat) : Real :=
  if 50 < temp_f ∨ speed_mph < 3 then (temp_f : Real)
  else 35.74 + (0.6215 * (temp_f : Real)) - (35.75 * (speed_mph : Real) ^ (0.16 : Real))
    + (0.4275 * (temp_f : Real) * (speed_mph : Real) ^ (0.16 : Real))

/-- Python's `int(x)` on a float: truncation toward zero. -/
noncomputable def py_int (x : Real) : Int :=
  if x < 0 then ⌈x⌉ else ⌊x⌋

/-- Road-surface section of `analyze_hour` (app.py lines 182-204):
score contribution, alert tags, and major reasons, applied to the
lowercased forecast text and the temperature. -/
def road_rule (short_forecast : String) (temp : Int) :
    Int × List String × List String :=
  if occurs_str "heavy snow" short_forecast then
    (3, ["❄️ HEAVY SNOW"], ["Heavy Snow"])
  else if occurs_str "snow" short_forecast || occurs_str "ice" short_forecast then
    if temp ≤ 32 then (2, ["❄️ Icy Roads"], ["Icy Roads"])
    else (1, ["💧 Slush"], ["Slush"])
  else if occurs_str "rain" short_forecast then
    if temp ≤ 32 then (3, ["🧊 FREEZING RAIN"], ["FREEZING RAIN"])
    else if temp ≤ 37 then (1, ["🧊 Possible Black Ice"], ["Black Ice Risk"])
    else (0, [], [])
  else (0, [], [])

/-- Wind section of `analyze_hour` (app.py lines 206-220). -/
def wind_rule (effective_wind : Nat) (short_forecast : String) :
    Int × List String × List String :=
  if 50 ≤ effective_wind then
    (3, [s!"💨 STORM GUSTS {effective_wind} MPH"], [s!"Severe Winds ({effective_wind} mph)"])
  else if 40 ≤ effective_wind then
    (2, [s!"💨 GUSTS {effective_wind} MPH"], [s!"High Winds ({effective_wind} mph)"])
  else if 30 ≤ effective_wind then
    (1, [s!"💨 Windy ({effective_wind})"], ["Windy conditions"])
  else if occurs_str "breezy" short_forecast || occurs_str "windy" short_forecast then
    if effective_wind < 20 then (0, ["💨 Breezy"], []) else (0, [], [])
  else (0, [], [])

/-- Crosswind section of `analyze_hour` (app.py lines 222-226): fires
for the hard-coded sensitive waypoint names whenever the effective wind
exceeds 25 mph; the observation's wind direction is not consulted. -/
def crosswind_rule (location_name : String) (effective_wind : Nat) :
    Int × List String × List String :=
  if (occurs_str "McDonald" location_name || occurs_str "Pullman" location_name
      || occurs_str "Lewiston" location_name || occurs_str "Polson" location_name)
      ∧ 25 < effective_wind then
    (1, ["↔️ CROSSWIND"], ["Crosswinds"])
  else (0, [], [])

/-- Sun-glare section of `analyze_hour` (app.py lines 228-243): tags
only, no score.  A `none` start time is the `except: pass` path. -/
def glare_rule (startTime : Option (String × Nat)) (short_forecast : String)
    (trip_direction overall_direction : String) : List String :=
  match startTime with
  | .none => []
  | .some (_, hour_int) =>
    if occurs_str "sunny" short_forecast || occurs_str "clear" short_forecast then
      (if overall_direction = "East" then
        (if trip_direction = "Out" ∧ 7 ≤ hour_int ∧ hour_int ≤ 10 then ["😎 Sun Glare"] else [])
          ++ (if trip_direction = "Ret" ∧ 15 ≤ hour_int ∧ hour_int ≤ 18 then ["😎 Sun Glare"] else [])
      else [])
        ++ (if overall_direction = "South" ∧ trip_direction = "Out" ∧ 8 ≤ hour_int ∧ hour_int ≤ 11
            then ["😎 Sun Glare"] else [])
        ++ (if overall_direction = "North" ∧ trip_direction = "Out" ∧ 9 ≤ hour_int ∧ hour_int ≤ 12
            then ["😎 Sun Glare"] else [])
    else []

/-- Wind-chill section of `analyze_hour` (app.py lines 245-250).  The
Python guard `if wc and wc < 0` equals `wc < 0` (a zero float is falsy
but also fails `wc < 0`). -/
noncomputable def chill_rule (temp : Int) (effective_wind : Nat) :
    Int × List String × List String :=
  let wc := calculate_wind_chill temp effective_wind
  if wc < 0 then
    let wci := py_int wc
    (1, [s!"🥶 Chill {wci}°"], ["Dangerous Wind Chill"])
  else (0, [], [])

/-- Status computation of `analyze_hour` (app.py lines 252-255): the
sequence of reassignments starting from "🟢". -/
def status_of (risk_score : Int) : String :=
  let status := "🟢"
  let status := if risk_score = 1 then "🟡" else status
  let status := if risk_score = 2 then "🟠" else status
  let status := if 3 ≤ risk_score then "🔴" else status
  status

/-- Effective wind of an observation: `max(get_int(windSpeed),
get_int(windGust))` (app.py lines 177-179). -/
def effective_wind_of (row : Obs) : Nat :=
  max (get_int row.windSpeed) (get_int row.windGust)

/-- The 7-tuple returned by `analyze_hour` (app.py line 257), as a
structure.  `alert_list` is the Python `alerts` list; the returned
string is its `", ".join`, kept in `alerts`. -/
structure HourAssessment where
  status : String
  alerts : String
  risk_score : Int
  effective_wind : Nat
  pop : Nat
  is_daytime : Bool
  major_reasons : List String
  alert_list : List String
  deriving DecidableEq

/-- `analyze_hour` (app.py lines 165-257): defaults applied with
`row.get`, the five rule sections in order (their score contributions
added and their tags appended in sequence), then the status emoji. -/
noncomputable def analyze_hour (row : Obs) (location_name : String)
    (trip_direction : String) (overall_direction : String) : HourAssessment :=
  let temp := row.temperature.getD 32
  let short_forecast := py_lower (row.shortForecast.getD "")
  let _direction := row.windDirection.getD "N"
  let is_daytime := row.isDaytime.getD true
  let effective_wind := max (get_int row.windSpeed) (get_int row.windGust)
  let pop := get_int row.probabilityOfPrecipitation
  let road := road_rule short_forecast temp
  let wind := wind_rule effective_wind short_forecast
  let cross := crosswind_rule location_name effective_wind
  let glare := glare_rule row.startTime short_forecast trip_direction overall_direction
  let chill := chill_rule temp effective_wind
  let risk_score := road.1 + wind.1 + cross.1 + chill.1
  let alert_list := road.2.1 ++ wind.2.1 ++ cross.2.1 ++ glare ++ chill.2.1
  let major_reasons := road.2.2 ++ wind.2.2 ++ cross.2.2 ++ chill.2.2
  { status := status_of risk_score
    alerts := String.intercalate ", " alert_list
    risk_score := risk_score
    effective_wind := effective_wind
    pop := pop
    is_daytime := is_daytime
    major_reasons := major_reasons
    alert_list := alert_list }

/-- The spec's ordinal severity scale. -/
inductive Tier where
  | Clear
  | Caution
  | Elevated
  | Severe
  deriving DecidableEq

/-- Severity tier from a total risk score, by the spec's fixed
thresholds: 0 → Clear, 1 → Caution, 2 → Elevated, ≥ 3 → Severe. -/
def tier_of_score (s : Int) : Tier :=
  if 3 ≤ s then .Severe
  else if s = 2 then .Elevated
  else if s = 1 then .Caution
  else .Clear

/-- The status emoji the code prints for each tier. -/
def tier_emoji : Tier → String
  | .Clear => "🟢"
  | .Caution => "🟡"
  | .Elevated => "🟠"
  | .Severe => "🔴"

/-- Rank of a status emoji on the ordinal scale (Clear < Caution <
Elevated < Severe). -/
def emoji_rank (s : String) : Nat :=
  if s = "🔴" then 3 else if s = "🟠" then 2 else if s = "🟡" then 1 else 0

/-! ### The aggregation pipeline (app.py lines 263-398) -/

/-- The per-route configuration the UI loads at lines 263-274: route
orientation, the two hour windows, the ordered `LOCATIONS` entries
(name, url), and the `COORDINATES` map. -/
structure RouteCfg where
  direction : String
  outbound_hours : List Nat
  return_hours : List Nat
  locations : List (String × String)
  coords : String → Option String

/-- The filtering step of `fetch_active_alerts` (app.py lines 132-137):
keep the events containing one of the capitalized substrings "Winter",
"Wind", "Ice", "Blizzard", "Snow", "Flood" (Python's case-sensitive
`in`), uppercase them, and deduplicate (`list(set(alerts))`; the
arbitrary set order is modelled as first-occurrence order). -/
def filter_alert_events (events : List String) : List String :=
  ((events.filter fun event =>
    occurs_str "Winter" event || occurs_str "Wind" event || occurs_str "Ice" event
      || occurs_str "Blizzard" event || occurs_str "Snow" event
      || occurs_str "Flood" event).map py_upper).dedup

/-- The risk contribution of one kept alert string (app.py lines
329-330): 3 for a "WARNING", else 2 for an "ADVISORY" or "WATCH", else
nothing. -/
def alert_score (alert : String) : Option Int :=
  if occurs_str "WARNING" alert then some 3
  else if occurs_str "ADVISORY" alert || occurs_str "WATCH" alert then some 2
  else none

/-- The numbers a waypoint's kept alerts append to `daily_risks`. -/
def alert_risk_list (alerts : List String) : List Int :=
  alerts.filterMap alert_score

/-- One step of the inner hourly loop of the processing pass (app.py
lines 340-358), restricted to its `max_risk` accumulation: a row whose
timestamp failed to parse is skipped (`except: continue`); a row of
the selected date raises the accumulator to `score_o` when its hour is
in the outbound window and then to `score_r` when its hour is in the
return window. -/
noncomputable def waypoint_step (cfg : RouteCfg) (sel name : String)
    (max_risk : Int) (hour : Obs) : Int :=
  match hour.startTime with
  | .none => max_risk
  | .some (date_str, h) =>
    if date_str = sel then
      let score_o := (analyze_hour hour name "Out" cfg.direction).risk_score
      let score_r := (analyze_hour hour name "Ret" cfg.direction).risk_score
      let max_risk := if h ∈ cfg.outbound_hours ∧ score_o > max_risk then score_o else max_risk
      let max_risk := if h ∈ cfg.return_hours ∧ score_r > max_risk then score_r else max_risk
      max_risk
    else max_risk

/-- The `max_risk` a waypoint's hourly feed accumulates over the loop
(app.py lines 338-358). -/
noncomputable def waypoint_max_risk (cfg : RouteCfg) (sel : String)
    (name : String) (raw : List Obs) : Int :=
  raw.foldl (waypoint_step cfg sel name) 0

/-- The `daily_risks` entries produced by one `LOCATIONS` item
(app.py lines 321-334 and 386): first the alert contributions (when the
waypoint has coordinates), then — only when the hourly feed is
non-empty — the waypoint's `max_risk`. -/
noncomputable def location_daily_risks (cfg : RouteCfg)
    (fetchHourly : String → List Obs) (fetchAlerts : String → List String)
    (sel : String) (loc : String × String) : List Int :=
  let arisks := match cfg.coords loc.1 with
    | .some lat_lon => alert_risk_list (filter_alert_events (fetchAlerts lat_lon))
    | .none => []
  match fetchHourly loc.2 with
  | [] => arisks
  | _ => arisks ++ [waypoint_max_risk cfg sel loc.1 (fetchHourly loc.2)]

/-- The full `daily_risks` list accumulated over all waypoints. -/
noncomputable def daily_risks (cfg : RouteCfg) (fetchHourly : String → List Obs)
    (fetchAlerts : String → List String) (sel : String) : List Int :=
  (cfg.locations.map (location_daily_risks cfg fetchHourly fetchAlerts sel)).flatten

/-- `max(daily_risks) if daily_risks else 0` (app.py line 389). -/
def py_list_max (l : List Int) : Int :=
  match l with
  | [] => 0
  | x :: xs => xs.foldl max x

/-- The distinct formatted dates of the reference feed (app.py lines
292-302); rows with unparseable timestamps are skipped. -/
def unique_dates (raw : List Obs) : List String :=
  (raw.filterMap fun p => p.startTime.map Prod.fst).dedup

/-- One evaluation pass (app.py lines 284-389): the connection check
reads the first `LOCATIONS` url; an empty reference feed stops with the
"Offline" outcome (`none`), as does a feed with no parseable dates;
otherwise the overall risk is the maximum of `daily_risks`.  An empty
`LOCATIONS` table would crash the indexing at line 284 and is also
`none`. -/
noncomputable def run_request (cfg : RouteCfg) (fetchHourly : String → List Obs)
    (fetchAlerts : String → List String) (sel : String) : Option Int :=
  match cfg.locations with
  | [] => none
  | (_, u0) :: _ =>
    match fetchHourly u0 with
    | [] => none
    | _ =>
      match unique_dates (fetchHourly u0) with
      | [] => none
      | _ => some (py_list_max (daily_risks cfg fetchHourly fetchAlerts sel))

/-! ### Spec-side aggregation (follows the spec's words, for C4/C9) -/

/-- The risk a single row contributes to a leg: its hourly score when
it belongs to the selected date and the leg's hour window, else 0. -/
noncomputable def leg_entry (cfg : RouteCfg) (sel name trip_direction : String)
    (hours : List Nat) (row : Obs) : Int :=
  match row.startTime with
  | .some (date_str, h) =>
    if date_str = sel ∧ h ∈ hours then
      (analyze_hour row name trip_direction cfg.direction).risk_score
    else 0
  | .none => 0

/-- Follows the spec's words: "the leg's risk is the maximum score
observed in that window" — the maximum (floor 0) of the hourly risk
scores of the rows of the selected date whose hour lies in the given
direction's window. -/
noncomputable def spec_leg_risk (cfg : RouteCfg) (sel name : String)
    (raw : List Obs) (trip_direction : String) (hours : List Nat) : Int :=
  (raw.map (leg_entry cfg sel name trip_direction hours)).foldl max 0

/-- Follows the spec's words: "maximum leg risk across all waypoints
and both directions", waypoints with an empty hourly feed counting as
absent. -/
noncomputable def spec_legs_max (cfg : RouteCfg) (fetchHourly : String → List Obs)
    (sel : String) : Int :=
  (cfg.locations.map fun loc =>
    match fetchHourly loc.2 with
    | [] => 0
    | raw => max (spec_leg_risk cfg sel loc.1 raw "Out" cfg.outbound_hours)
        (spec_leg_risk cfg sel loc.1 raw "Ret" cfg.return_hours)).foldl max 0

/-- Follows the spec's words: the maximum alert contribution (Warning
3, Watch/Advisory 2) over every waypoint's kept alerts. -/
def spec_alerts_max (cfg : RouteCfg) (fetchAlerts : String → List String) : Int :=
  ((cfg.locations.map fun loc =>
    match cfg.coords loc.1 with
    | .some lat_lon => alert_risk_list (filter_alert_events (fetchAlerts lat_lon))
    | .none => []).flatten).foldl max 0

/-- Follows the spec's words: overall trip risk is the max-merge of the
leg maxima and the alert contributions. -/
noncomputable def spec_overall (cfg : RouteCfg) (fetchHourly : String → List Obs)
    (fetchAlerts : String → List String) (sel : String) : Int :=
  max (spec_alerts_max cfg fetchAlerts) (spec_legs_max cfg fetchHourly sel)

/-- A Warning-class active alert exists at some waypoint that has
coordinates. -/
def warning_present (cfg : RouteCfg) (fetchAlerts : String → List String) : Prop :=
  ∃ loc, loc ∈ cfg.locations ∧ ∃ lat_lon, cfg.coords loc.1 = some lat_lon ∧
    ∃ a, a ∈ filter_alert_events (fetchAlerts lat_lon) ∧ occurs_str "WARNING" a = true

/-! ### Helper lemmas -/

lemma str_data_append (a b : String) : (a ++ b).data = a.data ++ b.data := rfl

lemma interp_head (p x s : String) (c : Char) (l : List Char) (hp : p.data = c :: l) :
    (p ++ x ++ s).data.head? = some c := by
  simp only [str_data_append, hp]
  rfl

/-- A string built by three-part interpolation differs from any string
with a different first character. -/
lemma interp_ne (p x s t : String) (c : Char) (l : List Char) (hp : p.data = c :: l)
    (ht : t.data.head? ≠ some c) : p ++ x ++ s ≠ t := by
  intro h
  exact ht (h ▸ interp_head p x s c l hp)

lemma cwc_guard (t : Int) (v : Nat) (h : 50 < t ∨ v < 3) :
    calculate_wind_chill t v = t := by
  unfold calculate_wind_chill
  exact if_pos h

lemma cwc_formula (t : Int) (v : Nat) (h : ¬(50 < t ∨ v < 3)) :
    calculate_wind_chill t v
      = 35.74 + (0.6215 * (t : Real)) - (35.75 * (v : Real) ^ (0.16 : Real))
        + (0.4275 * (t : Real) * (v : Real) ^ (0.16 : Real)) := by
  unfold calculate_wind_chill
  exact if_neg h

lemma chill_rule_warm (t : Int) (v : Nat) (h : 50 < t) :
    chill_rule t v = (0, [], []) := by
  unfold chill_rule
  rw [cwc_guard t v (Or.inl h)]
  rw [if_neg]
  rw [not_lt]
  have h0 : (0 : Int) ≤ t := le_of_lt (lt_trans (by norm_num) h)
  exact_mod_cast h0

/-- Within the formula's domain the wind-chill value never increases
when the wind speed increases (for temperatures in the guard envelope
the `V^0.16` coefficient is negative). -/
lemma cwc_neg_mono (t : Int) {v w : Nat} (hvw : v ≤ w)
    (h : calculate_wind_chill t v < 0) : calculate_wind_chill t w < 0 := by
  by_cases ht : 50 < t
  · rw [cwc_guard t v (Or.inl ht)] at h
    rw [cwc_guard t w (Or.inl ht)]
    exact h
  · push_neg at ht
    by_cases hw3 : w < 3
    · have hv3 : v < 3 := lt_of_le_of_lt hvw hw3
      rw [cwc_guard t v (Or.inr hv3)] at h
      rw [cwc_guard t w (Or.inr hw3)]
      exact h
    · push_neg at hw3
      have hcoef : 0.4275 * (t : Real) - 35.75 < 0 := by
        have : (t : Real) ≤ 50 := by exact_mod_cast ht
        nlinarith
      have hw1 : (1 : Real) ≤ (w : Real) ^ (0.16 : Real) := by
        have h1w : (1 : Real) ≤ (w : Real) := by
          have : (3 : Nat) ≤ w := hw3
          have h3 : (3 : Real) ≤ (w : Real) := by exact_mod_cast this
          linarith
        calc (1 : Real) = (1 : Real) ^ (0.16 : Real) := (Real.one_rpow _).symm
          _ ≤ (w : Real) ^ (0.16 : Real) := Real.rpow_le_rpow (by norm_num) h1w (by norm_num)
      rw [cwc_formula t w (by push_neg; exact ⟨ht, hw3⟩)]
      by_cases hv3 : v < 3
      · -- guard returned the raw temperature, so the temperature is negative
        rw [cwc_guard t v (Or.inr hv3)] at h
        have htr : (t : Real) < 0 := h
        nlinarith [mul_nonneg (sub_nonneg.mpr hw1) (by linarith : (0 : Real) ≤ 35.75 - 0.4275 * (t : Real))]
      · push_neg at hv3
        rw [cwc_formula t v (by push_neg; exact ⟨ht, hv3⟩)] at h
        have hpp : (v : Real) ^ (0.16 : Real) ≤ (w : Real) ^ (0.16 : Real) := by
          have : (v : Real) ≤ (w : Real) := by exact_mod_cast hvw
          exact Real.rpow_le_rpow (by positivity) this (by norm_num)
        nlinarith [mul_nonneg (sub_nonneg.mpr hpp) (by linarith : (0 : Real) ≤ 35.75 - 0.4275 * (t : Real))]

lemma road_rule_nonneg (sf : String) (t : Int) : 0 ≤ (road_rule sf t).1 := by
  unfold road_rule
  split_ifs <;> norm_num

lemma wind_rule_nonneg (v : Nat) (sf : String) : 0 ≤ (wind_rule v sf).1 := by
  unfold wind_rule
  split_ifs <;> norm_num

lemma crosswind_rule_nonneg (name : String) (v : Nat) : 0 ≤ (crosswind_rule name v).1 := by
  unfold crosswind_rule
  split_ifs <;> norm_num

lemma chill_rule_nonneg (t : Int) (v : Nat) : 0 ≤ (chill_rule t v).1 := by
  unfold chill_rule
  dsimp only
  split_ifs <;> norm_num

lemma wind_rule_mono (sf : String) {v w : Nat} (hvw : v ≤ w) :
    (wind_rule v sf).1 ≤ (wind_rule w sf).1 := by
  unfold wind_rule
  split_ifs <;> norm_num <;> omega

lemma crosswind_rule_mono (name : String) {v w : Nat} (hvw : v ≤ w) :
    (crosswind_rule name v).1 ≤ (crosswind_rule name w).1 := by
  unfold crosswind_rule
  split_ifs with h1 h2 <;> norm_num
  exact h2 ⟨h1.1, lt_of_lt_of_le h1.2 hvw⟩

lemma chill_rule_mono (t : Int) {v w : Nat} (hvw : v ≤ w) :
    (chill_rule t v).1 ≤ (chill_rule t w).1 := by
  unfold chill_rule
  dsimp only
  split_ifs with h1 h2 <;> norm_num
  exact h2 (cwc_neg_mono t hvw h1)

/-- The risk score of `analyze_hour` is (definitionally) the sum of the
four scoring sections, at the defaulted field values. -/
lemma analyze_hour_risk_score (row : Obs) (name td od : String) :
    (analyze_hour row name td od).risk_score
      = (road_rule (py_lower (row.shortForecast.getD "")) (row.temperature.getD 32)).1
        + (wind_rule (effective_wind_of row) (py_lower (row.shortForecast.getD ""))).1
        + (crosswind_rule name (effective_wind_of row)).1
        + (chill_rule (row.temperature.getD 32) (effective_wind_of row)).1 := rfl

/-- The alert tags of `analyze_hour` are (definitionally) the five
sections' tags in order. -/
lemma analyze_hour_alert_list (row : Obs) (name td od : String) :
    (analyze_hour row name td od).alert_list
      = (road_rule (py_lower (row.shortForecast.getD "")) (row.temperature.getD 32)).2.1
        ++ (wind_rule (effective_wind_of row) (py_lower (row.shortForecast.getD ""))).2.1
        ++ (crosswind_rule name (effective_wind_of row)).2.1
        ++ glare_rule row.startTime (py_lower (row.shortForecast.getD "")) td od
        ++ (chill_rule (row.temperature.getD 32) (effective_wind_of row)).2.1 := rfl

lemma analyze_hour_status (row : Obs) (name td od : String) :
    (analyze_hour row name td od).status
      = status_of (analyze_hour row name td od).risk_score := rfl

lemma status_of_eq (s : Int) :
    status_of s = if 3 ≤ s then "🔴" else if s = 2 then "🟠" else if s = 1 then "🟡" else "🟢" := rfl

lemma status_of_eq_tier (s : Int) : status_of s = tier_emoji (tier_of_score s) := by
  rw [status_of_eq]
  unfold tier_of_score
  split_ifs <;> rfl

lemma emoji_rank_status_mono {s t : Int} (hst : s ≤ t) :
    emoji_rank (status_of s) ≤ emoji_rank (status_of t) := by
  rw [status_of_eq, status_of_eq]
  split_ifs <;> simp [emoji_rank] <;> omega

/-! ### Max-fold lemmas for the aggregation pipeline -/

lemma max_swap4 (a b c d : Int) :
    max (max a b) (max c d) = max (max a c) (max b d) := by
  rw [max_assoc, max_left_comm b c d, ← max_assoc]

lemma foldl_max_init (l : List Int) (a b : Int) :
    l.foldl max (max a b) = max a (l.foldl max b) := by
  induction l generalizing b with
  | nil => rfl
  | cons x xs ih =>
    show xs.foldl max (max (max a b) x) = max a (xs.foldl max (max b x))
    rw [max_assoc, ih]

lemma le_foldl_max (l : List Int) (a : Int) : a ≤ l.foldl max a := by
  induction l generalizing a with
  | nil => exact le_refl a
  | cons x xs ih => exact le_trans (le_max_left a x) (ih (max a x))

lemma foldl_max_nonneg (l : List Int) {a : Int} (h : 0 ≤ a) : 0 ≤ l.foldl max a :=
  le_trans h (le_foldl_max l a)

lemma mem_le_foldl_max : ∀ (l : List Int) (a : Int) {x : Int}, x ∈ l → x ≤ l.foldl max a
  | [], _, _, hx => absurd hx (List.not_mem_nil _)
  | y :: ys, a, x, hx => by
    rcases List.mem_cons.mp hx with rfl | h
    · exact le_trans (le_max_right a x) (le_foldl_max ys (max a x))
    · exact mem_le_foldl_max ys (max a y) h

lemma foldl_max_eq_max (l : List Int) {a : Int} (h : 0 ≤ a) :
    l.foldl max a = max a (l.foldl max 0) := by
  have hinit := foldl_max_init l a 0
  rwa [max_eq_left h] at hinit

lemma foldl_max_append (l₁ l₂ : List Int) :
    (l₁ ++ l₂).foldl max 0 = max (l₁.foldl max 0) (l₂.foldl max 0) := by
  rw [List.foldl_append]
  exact foldl_max_eq_max l₂ (foldl_max_nonneg l₁ le_rfl)

lemma foldl_max_flatten (L : List (List Int)) :
    L.flatten.foldl max 0 = (L.map fun l => l.foldl max 0).foldl max 0 := by
  induction L with
  | nil => rfl
  | cons l Ls ih =>
    rw [List.flatten_cons, foldl_max_append, ih, List.map_cons, List.foldl_cons,
      max_eq_right (foldl_max_nonneg l le_rfl),
      foldl_max_eq_max _ (foldl_max_nonneg l le_rfl)]

lemma foldl_max_map_max {α : Type} (l : List α) (f g : α → Int) (a b : Int) :
    (l.map fun r => max (f r) (g r)).foldl max (max a b)
      = max ((l.map f).foldl max a) ((l.map g).foldl max b) := by
  induction l generalizing a b with
  | nil => rfl
  | cons x xs ih =>
    rw [List.map_cons, List.foldl_cons, List.map_cons (f := f), List.foldl_cons,
      List.map_cons (f := g), List.foldl_cons, max_swap4]
    exact ih (max a (f x)) (max b (g x))

/-! ### Claim C7: alert filtering and classification -/

/-- C7 (amended): the classifier keeps exactly the events containing
one of the capitalized substrings "Winter", "Wind", "Ice", "Blizzard",
"Snow", "Flood" — Python's `in` is case-sensitive, so this is not a
case-insensitive match — uppercases each kept event, deduplicates, and
scores a kept alert containing "WARNING" with 3, else one containing
"ADVISORY" or "WATCH" with 2. -/
theorem helana_C7_thm :
    (∀ (events : List String) (a : String),
      a ∈ filter_alert_events events ↔
        ∃ e, e ∈ events ∧
          (occurs_str "Winter" e || occurs_str "Wind" e || occurs_str "Ice" e
            || occurs_str "Blizzard" e || occurs_str "Snow" e
            || occurs_str "Flood" e) = true ∧
          a = py_upper e) ∧
    (∀ events, (filter_alert_events events).Nodup) ∧
    (∀ a, occurs_str "WARNING" a = true → alert_score a = some 3) ∧
    (∀ a, occurs_str "WARNING" a = false →
      (occurs_str "ADVISORY" a || occurs_str "WATCH" a) = true →
      alert_score a = some 2) := by
  refine ⟨fun events a => ?_, fun events => List.nodup_dedup _, fun a h => ?_,
    fun a h1 h2 => ?_⟩
  · unfold filter_alert_events
    rw [List.mem_dedup, List.mem_map]
    constructor
    · rintro ⟨e, he, rfl⟩
      rw [List.mem_filter] at he
      exact ⟨e, he.1, he.2, rfl⟩
    · rintro ⟨e, he, hm, rfl⟩
      exact ⟨e, List.mem_filter.mpr ⟨he, hm⟩, rfl⟩
  · unfold alert_score
    rw [if_pos h]
  · unfold alert_score
    rw [if_neg (by simp [h1]), if_pos h2]

/-- Counterexample for C7 as frozen: the all-lowercase event
"winter storm warning" contains "winter" case-insensitively, so the
claim keeps it; the code's case-sensitive match against "Winter" drops
it. -/
theorem helana_C7_counterexample :
    occurs_str "winter" (py_lower "winter storm warning") = true ∧
    filter_alert_events ["winter storm warning"] = [] := by
  exact ⟨by decide, rfl⟩

/-- Witness for C7: a kept warning alert scores 3. -/
theorem helana_C7_witness : alert_score "WINTER STORM WARNING" = some 3 :=
  helana_C7_thm.2.2.1 "WINTER STORM WARNING" (by decide)

/-! ### Claim C8: wind-chill guard and formula -/

/-- C8: `calculate_wind_chill t v` returns `t` unchanged whenever
`t > 50` or `v < 3`, and otherwise returns exactly
`35.74 + 0.6215·t − 35.75·v^0.16 + 0.4275·t·v^0.16`; at temperature 55
and wind 40 mph it returns 55 and the chill section produces no tag and
no score. -/
theorem helana_C8_thm :
    (∀ (t : Int) (v : Nat), 50 < t ∨ v < 3 → calculate_wind_chill t v = t) ∧
    (∀ (t : Int) (v : Nat), ¬(50 < t ∨ v < 3) →
      calculate_wind_chill t v
        = 35.74 + (0.6215 * (t : Real)) - (35.75 * (v : Real) ^ (0.16 : Real))
          + (0.4275 * (t : Real) * (v : Real) ^ (0.16 : Real))) ∧
    calculate_wind_chill 55 40 = 55 ∧
    chill_rule 55 40 = (0, [], []) := by
  refine ⟨cwc_guard, cwc_formula, ?_, chill_rule_warm 55 40 (by norm_num)⟩
  rw [cwc_guard 55 40 (Or.inl (by norm_num))]
  norm_num

/-- Witness for C8 at temperature 60, wind 10. -/
theorem helana_C8_witness : calculate_wind_chill 60 10 = ((60 : Int) : Real) :=
  helana_C8_thm.1 60 10 (Or.inl (by norm_num))

/-! ### Claim C5: severity tier from total score -/

/-- C5: the status returned by `analyze_hour` is a pure function of the
total risk score through the fixed thresholds 0 → Clear, 1 → Caution,
2 → Elevated, ≥ 3 → Severe. -/
theorem helana_C5_thm :
    (∀ (row : Obs) (name td od : String),
      (analyze_hour row name td od).status
        = tier_emoji (tier_of_score (analyze_hour row name td od).risk_score)) ∧
    tier_of_score 0 = Tier.Clear ∧
    tier_of_score 1 = Tier.Caution ∧
    tier_of_score 2 = Tier.Elevated ∧
    (∀ s : Int, 3 ≤ s → tier_of_score s = Tier.Severe) := by
  refine ⟨fun row name td od => ?_, by decide, by decide, by decide, fun s hs => ?_⟩
  · rw [analyze_hour_status, status_of_eq_tier]
  · unfold tier_of_score
    rw [if_pos hs]

/-- Witness for C5: a score of 7 is Severe. -/
theorem helana_C5_witness : tier_of_score 7 = Tier.Severe :=
  helana_C5_thm.2.2.2.2 7 (by norm_num)

/-! ### Claim C10: the assessment ignores the wind compass direction -/

/-- C10: two observations identical except for `windDirection` receive
identical assessments (status, alert string, risk score, reasons and
all): `analyze_hour` reads the field into a local and never uses it. -/
theorem helana_C10_thm (row : Obs) (d₁ d₂ : Option String) (name td od : String) :
    analyze_hour { row with windDirection := d₁ } name td od
      = analyze_hour { row with windDirection := d₂ } name td od := by
  cases row
  rfl

/-! ### Claim C1: wind thresholds -/

/-- C1 (amended): effective wind ≥ 50 adds +3 with a storm-gusts tag;
else ≥ 40 adds +2 with a gusts tag; else ≥ 30 adds +1 with a windy
tag; else, when the forecast text says breezy/windy and the effective
wind is below 20, only a "Breezy" tag is added with no score; no other
wind contribution exists. -/
theorem helana_C1_thm (v : Nat) (sf : String) :
    (50 ≤ v → wind_rule v sf
      = (3, [s!"💨 STORM GUSTS {v} MPH"], [s!"Severe Winds ({v} mph)"])) ∧
    (40 ≤ v → v < 50 → wind_rule v sf
      = (2, [s!"💨 GUSTS {v} MPH"], [s!"High Winds ({v} mph)"])) ∧
    (30 ≤ v → v < 40 → wind_rule v sf
      = (1, [s!"💨 Windy ({v})"], ["Windy conditions"])) ∧
    (v < 20 → (occurs_str "breezy" sf || occurs_str "windy" sf) = true →
      wind_rule v sf = (0, ["💨 Breezy"], [])) ∧
    (20 ≤ v → v < 30 → wind_rule v sf = (0, [], [])) ∧
    (v < 30 → (occurs_str "breezy" sf || occurs_str "windy" sf) = false →
      wind_rule v sf = (0, [], [])) := by
  refine ⟨fun h50 => ?_, fun h40 h50 => ?_, fun h30 h40 => ?_,
    fun h20 hb => ?_, fun h20 h30 => ?_, fun h30 hb => ?_⟩
  · unfold wind_rule
    rw [if_pos h50]
  · unfold wind_rule
    rw [if_neg (by omega), if_pos h40]
  · unfold wind_rule
    rw [if_neg (by omega), if_neg (by omega), if_pos h30]
  · unfold wind_rule
    rw [if_neg (by omega), if_neg (by omega), if_neg (by omega), if_pos hb, if_pos h20]
  · unfold wind_rule
    rw [if_neg (by omega), if_neg (by omega), if_neg (by omega)]
    cases hb : (occurs_str "breezy" sf || occurs_str "windy" sf) with
    | false => rw [if_neg (by simp [hb])]
    | true => rw [if_pos rfl, if_neg (by omega)]
  · unfold wind_rule
    rw [if_neg (by omega), if_neg (by omega), if_neg (by omega), if_neg (by simp [hb])]

/-- Counterexample for C1 as frozen: at effective wind 50 (which is
"at least 45") the code adds +3 with a storm tag, not +2; and at 40
(below 45 but at least 30) it adds +2 with a gusts tag, not +1 with a
windy tag. -/
theorem helana_C1_counterexample :
    (wind_rule 50 "").1 = 3 ∧ (wind_rule 50 "").1 ≠ 2 ∧
    (wind_rule 40 "").1 = 2 ∧ (wind_rule 40 "").2.1 = ["💨 GUSTS 40 MPH"] := by
  refine ⟨rfl, by decide, rfl, rfl⟩

/-- Witness for C1 (amended) at wind 50. -/
theorem helana_C1_witness :
    wind_rule 50 "" = (3, ["💨 STORM GUSTS 50 MPH"], ["Severe Winds (50 mph)"]) :=
  (helana_C1_thm 50 "").1 (by norm_num)

/-! ### Claim C2: road-surface rule -/

/-- C2 (amended): a "heavy snow" forecast adds +3 with a heavy-snow tag
first; otherwise a snow/ice forecast adds +2 ("Icy Roads") at ≤ 32 °F
else +1 ("Slush"); otherwise a rain forecast adds +3 ("FREEZING RAIN")
at ≤ 32 °F, else +1 ("Possible Black Ice") at 32–37 °F, else nothing;
the branches are mutually exclusive with first match winning, and a
forecast mentioning snow never yields either rain tag. -/
theorem helana_C2_thm (sf : String) (t : Int) :
    (occurs_str "heavy snow" sf = true →
      road_rule sf t = (3, ["❄️ HEAVY SNOW"], ["Heavy Snow"])) ∧
    (occurs_str "heavy snow" sf = false →
      (occurs_str "snow" sf || occurs_str "ice" sf) = true → t ≤ 32 →
      road_rule sf t = (2, ["❄️ Icy Roads"], ["Icy Roads"])) ∧
    (occurs_str "heavy snow" sf = false →
      (occurs_str "snow" sf || occurs_str "ice" sf) = true → 32 < t →
      road_rule sf t = (1, ["💧 Slush"], ["Slush"])) ∧
    (occurs_str "heavy snow" sf = false →
      (occurs_str "snow" sf || occurs_str "ice" sf) = false →
      occurs_str "rain" sf = true → t ≤ 32 →
      road_rule sf t = (3, ["🧊 FREEZING RAIN"], ["FREEZING RAIN"])) ∧
    (occurs_str "heavy snow" sf = false →
      (occurs_str "snow" sf || occurs_str "ice" sf) = false →
      occurs_str "rain" sf = true → 32 < t → t ≤ 37 →
      road_rule sf t = (1, ["🧊 Possible Black Ice"], ["Black Ice Risk"])) ∧
    (occurs_str "heavy snow" sf = false →
      (occurs_str "snow" sf || occurs_str "ice" sf) = false →
      occurs_str "rain" sf = true → 37 < t → road_rule sf t = (0, [], [])) ∧
    (occurs_str "heavy snow" sf = false →
      (occurs_str "snow" sf || occurs_str "ice" sf) = false →
      occurs_str "rain" sf = false → road_rule sf t = (0, [], [])) ∧
    (occurs_str "snow" sf = true →
      "🧊 FREEZING RAIN" ∉ (road_rule sf t).2.1 ∧
      "🧊 Possible Black Ice" ∉ (road_rule sf t).2.1) := by
  refine ⟨fun h1 => ?_, fun h1 h2 h3 => ?_, fun h1 h2 h3 => ?_, fun h1 h2 h3 h4 => ?_,
    fun h1 h2 h3 h4 h5 => ?_, fun h1 h2 h3 h4 => ?_, fun h1 h2 h3 => ?_, fun hsnow => ?_⟩
  · unfold road_rule
    rw [if_pos h1]
  · unfold road_rule
    rw [if_neg (by simp [h1]), if_pos h2, if_pos h3]
  · unfold road_rule
    rw [if_neg (by simp [h1]), if_pos h2, if_neg (by omega)]
  · unfold road_rule
    rw [if_neg (by simp [h1]), if_neg (by simp [h2]), if_pos h3, if_pos h4]
  · unfold road_rule
    rw [if_neg (by simp [h1]), if_neg (by simp [h2]), if_pos h3, if_neg (by omega),
      if_pos h5]
  · unfold road_rule
    rw [if_neg (by simp [h1]), if_neg (by simp [h2]), if_pos h3, if_neg (by omega),
      if_neg (by omega)]
  · unfold road_rule
    rw [if_neg (by simp [h1]), if_neg (by simp [h2]), if_neg (by simp [h3])]
  · unfold road_rule
    split_ifs with g1 g2 g3 g4 g5 g6 <;> simp_all

/-- Counterexample for C2 as frozen: the forecast "heavy snow" at 28 °F
mentions snow with temperature ≤ 32, so the claim demands exactly +2
with "Icy Roads"; the code's extra first branch gives +3 with the
"HEAVY SNOW" tag. -/
theorem helana_C2_counterexample :
    occurs_str "snow" "heavy snow" = true ∧ (28 : Int) ≤ 32 ∧
    (road_rule "heavy snow" 28).1 = 3 ∧
    (road_rule "heavy snow" 28).2.1 ≠ ["❄️ Icy Roads"] := by
  refine ⟨by decide, by norm_num, rfl, by decide⟩

/-- Witness for C2 (amended): forecast "snow" at 28 °F gives +2 icy
roads. -/
theorem helana_C2_witness :
    road_rule "snow" 28 = (2, ["❄️ Icy Roads"], ["Icy Roads"]) :=
  (helana_C2_thm "snow" 28).2.1 (by decide) (by decide) (by norm_num)

/-! ### Refinement of the aggregation loop (for C4 and C9) -/

lemma step_if_eq (P : Prop) [Decidable P] (s acc : Int) (h : 0 ≤ acc) :
    (if P ∧ s > acc then s else acc) = max acc (if P then s else 0) := by
  by_cases hP : P
  · rw [if_pos hP]
    rcases lt_or_le acc s with hs | hs
    · rw [if_pos ⟨hP, hs⟩, max_eq_right (le_of_lt hs)]
    · rw [if_neg (fun hc => absurd hc.2 (not_lt.mpr hs)), max_eq_left hs]
  · rw [if_neg hP, if_neg (fun hc => hP hc.1), max_eq_left h]

lemma waypoint_step_eq (cfg : RouteCfg) (sel name : String) (acc : Int) (h : 0 ≤ acc)
    (r : Obs) :
    waypoint_step cfg sel name acc r
      = max acc (max (leg_entry cfg sel name "Out" cfg.outbound_hours r)
          (leg_entry cfg sel name "Ret" cfg.return_hours r)) := by
  unfold waypoint_step leg_entry
  rcases hst : r.startTime with _ | ⟨d, hr⟩
  · dsimp only
    rw [max_self, max_eq_left h]
  · dsimp only
    by_cases hd : d = sel
    · rw [if_pos hd]
      simp only [hd, true_and]
      rw [step_if_eq (hr ∈ cfg.outbound_hours) _ acc h]
      rw [step_if_eq (hr ∈ cfg.return_hours) _ _ (le_trans h (le_max_left _ _))]
      rw [max_assoc]
    · rw [if_neg hd, if_neg (fun hc => hd hc.1), if_neg (fun hc => hd hc.1),
        max_self, max_eq_left h]

lemma waypoint_fold_eq (cfg : RouteCfg) (sel name : String) :
    ∀ (rs : List Obs) (acc : Int), 0 ≤ acc →
      rs.foldl (waypoint_step cfg sel name) acc
        = (rs.map fun r => max (leg_entry cfg sel name "Out" cfg.outbound_hours r)
            (leg_entry cfg sel name "Ret" cfg.return_hours r)).foldl max acc
  | [], _, _ => rfl
  | r :: rs, acc, h => by
    rw [List.foldl_cons, List.map_cons, List.foldl_cons,
      waypoint_step_eq cfg sel name acc h r]
    exact waypoint_fold_eq cfg sel name rs _ (le_trans h (le_max_left _ _))

/-- The loop's `max_risk` is exactly the max of the two legs' risks. -/
lemma waypoint_max_risk_eq (cfg : RouteCfg) (sel name : String) (raw : List Obs) :
    waypoint_max_risk cfg sel name raw
      = max (spec_leg_risk cfg sel name raw "Out" cfg.outbound_hours)
          (spec_leg_risk cfg sel name raw "Ret" cfg.return_hours) := by
  unfold waypoint_max_risk spec_leg_risk
  rw [waypoint_fold_eq cfg sel name raw 0 le_rfl]
  have hm := foldl_max_map_max raw (leg_entry cfg sel name "Out" cfg.outbound_hours)
    (leg_entry cfg sel name "Ret" cfg.return_hours) 0 0
  rw [max_self] at hm
  exact hm

lemma waypoint_max_risk_nonneg (cfg : RouteCfg) (sel name : String) (raw : List Obs) :
    0 ≤ waypoint_max_risk cfg sel name raw := by
  unfold waypoint_max_risk
  rw [waypoint_fold_eq cfg sel name raw 0 le_rfl]
  exact foldl_max_nonneg _ le_rfl

lemma alert_risk_list_nonneg (l : List String) : ∀ x ∈ alert_risk_list l, 0 ≤ x := by
  intro x hx
  unfold alert_risk_list at hx
  rw [List.mem_filterMap] at hx
  obtain ⟨a, _, ha⟩ := hx
  unfold alert_score at ha
  split_ifs at ha <;> simp_all <;> omega

lemma py_list_max_eq (l : List Int) (h : ∀ x ∈ l, 0 ≤ x) :
    py_list_max l = l.foldl max 0 := by
  cases l with
  | nil => rfl
  | cons x xs =>
    unfold py_list_max
    rw [List.foldl_cons, max_eq_right (h x (List.mem_cons_self x xs))]

lemma daily_risks_nonneg (cfg : RouteCfg) (fH : String → List Obs)
    (fA : String → List String) (sel : String) :
    ∀ x ∈ daily_risks cfg fH fA sel, 0 ≤ x := by
  intro x hx
  unfold daily_risks at hx
  rw [List.mem_flatten] at hx
  obtain ⟨l, hl, hxl⟩ := hx
  rw [List.mem_map] at hl
  obtain ⟨loc, _, rfl⟩ := hl
  unfold location_daily_risks at hxl
  have halert : ∀ y ∈ (match cfg.coords loc.1 with
      | some lat_lon => alert_risk_list (filter_alert_events (fA lat_lon))
      | none => ([] : List Int)), 0 ≤ y := by
    rcases cfg.coords loc.1 with _ | c
    · intro y hy
      exact absurd hy (List.not_mem_nil _)
    · exact alert_risk_list_nonneg _
  rcases hfe : fH loc.2 with _ | ⟨r, rs⟩
  · rw [hfe] at hxl
    exact halert x hxl
  · rw [hfe] at hxl
    dsimp only at hxl
    rcases List.mem_append.mp hxl with hxa | hxw
    · exact halert x hxa
    · rw [List.mem_singleton] at hxw
      subst hxw
      exact waypoint_max_risk_nonneg cfg sel loc.1 (r :: rs)

lemma location_fold_eq (cfg : RouteCfg) (fH : String → List Obs)
    (fA : String → List String) (sel : String) (loc : String × String) :
    (location_daily_risks cfg fH fA sel loc).foldl max 0
      = max ((match cfg.coords loc.1 with
          | some lat_lon => alert_risk_list (filter_alert_events (fA lat_lon))
          | none => ([] : List Int)).foldl max 0)
          (match fH loc.2 with
          | [] => 0
          | raw => max (spec_leg_risk cfg sel loc.1 raw "Out" cfg.outbound_hours)
              (spec_leg_risk cfg sel loc.1 raw "Ret" cfg.return_hours)) := by
  unfold location_daily_risks
  rcases hfe : fH loc.2 with _ | ⟨r, rs⟩
  · dsimp only
    exact (max_eq_left (foldl_max_nonneg _ le_rfl)).symm
  · dsimp only
    rw [foldl_max_append]
    congr 1
    calc ([waypoint_max_risk cfg sel loc.1 (r :: rs)]).foldl max 0
        = max 0 (waypoint_max_risk cfg sel loc.1 (r :: rs)) := rfl
      _ = waypoint_max_risk cfg sel loc.1 (r :: rs) :=
          max_eq_right (waypoint_max_risk_nonneg cfg sel loc.1 (r :: rs))
      _ = max (spec_leg_risk cfg sel loc.1 (r :: rs) "Out" cfg.outbound_hours)
            (spec_leg_risk cfg sel loc.1 (r :: rs) "Ret" cfg.return_hours) :=
          waypoint_max_risk_eq cfg sel loc.1 (r :: rs)

/-- The code's overall risk (max of `daily_risks`, 0 when empty) is the
spec's max-merge of alert contributions and leg maxima. -/
lemma py_list_max_daily_eq (cfg : RouteCfg) (fH : String → List Obs)
    (fA : String → List String) (sel : String) :
    py_list_max (daily_risks cfg fH fA sel) = spec_overall cfg fH fA sel := by
  rw [py_list_max_eq _ (daily_risks_nonneg cfg fH fA sel)]
  unfold daily_risks
  rw [foldl_max_flatten, List.map_map]
  simp only [Function.comp_def]
  rw [List.map_congr_left (fun loc _ => location_fold_eq cfg fH fA sel loc)]
  have hm := foldl_max_map_max cfg.locations
    (fun loc => (match cfg.coords loc.1 with
      | some lat_lon => alert_risk_list (filter_alert_events (fA lat_lon))
      | none => ([] : List Int)).foldl max 0)
    (fun loc => match fH loc.2 with
      | [] => 0
      | raw => max (spec_leg_risk cfg sel loc.1 raw "Out" cfg.outbound_hours)
          (spec_leg_risk cfg sel loc.1 raw "Ret" cfg.return_hours)) 0 0
  rw [max_self] at hm
  rw [hm]
  unfold spec_overall spec_alerts_max spec_legs_max
  rw [foldl_max_flatten, List.map_map]
  simp only [Function.comp_def]

/-! ### Claim C4: trip aggregation and alert dominance -/

/-- C4: under the availability guards, the request returns exactly the
spec's overall risk: the max-merge of the per-(waypoint, direction) leg
maxima (each the maximum, not the sum, of its window's hourly scores)
with the alert contributions; a Warning-class alert at any waypoint
forces at least 3, i.e. the Severe tier, regardless of hourly scores;
and alerts can only raise the verdict, never lower it below the leg
maxima. -/
theorem helana_C4_thm (cfg : RouteCfg) (fH : String → List Obs)
    (fA : String → List String) (sel n0 u0 : String) (tl : List (String × String))
    (hL : cfg.locations = (n0, u0) :: tl) (href : fH u0 ≠ [])
    (hdates : unique_dates (fH u0) ≠ []) :
    run_request cfg fH fA sel = some (spec_overall cfg fH fA sel) ∧
    spec_overall cfg fH fA sel
      = max (spec_alerts_max cfg fA) (spec_legs_max cfg fH sel) ∧
    (warning_present cfg fA →
      3 ≤ spec_overall cfg fH fA sel ∧
      tier_of_score (spec_overall cfg fH fA sel) = Tier.Severe) ∧
    spec_legs_max cfg fH sel ≤ spec_overall cfg fH fA sel := by
  refine ⟨?_, rfl, fun hwp => ?_, le_max_right _ _⟩
  · unfold run_request
    rw [hL]
    dsimp only
    rcases hre : fH u0 with _ | ⟨r, rs⟩
    · exact absurd hre href
    · rw [hre] at hdates
      rcases hud : unique_dates (r :: rs) with _ | ⟨d, ds⟩
      · exact absurd hud hdates
      · dsimp only
        rw [py_list_max_daily_eq]
  · have h3 : (3 : Int) ≤ spec_alerts_max cfg fA := by
      obtain ⟨loc, hloc, c, hc, a, ha, hw⟩ := hwp
      have h3mem : (3 : Int) ∈ alert_risk_list (filter_alert_events (fA c)) := by
        unfold alert_risk_list
        rw [List.mem_filterMap]
        refine ⟨a, ha, ?_⟩
        unfold alert_score
        rw [if_pos hw]
      have hlist : alert_risk_list (filter_alert_events (fA c))
          ∈ cfg.locations.map (fun loc => match cfg.coords loc.1 with
            | some lat_lon => alert_risk_list (filter_alert_events (fA lat_lon))
            | none => ([] : List Int)) := by
        rw [List.mem_map]
        refine ⟨loc, hloc, ?_⟩
        rw [hc]
      have hmem : (3 : Int) ∈ (cfg.locations.map (fun loc => match cfg.coords loc.1 with
          | some lat_lon => alert_risk_list (filter_alert_events (fA lat_lon))
          | none => ([] : List Int))).flatten :=
        List.mem_flatten.mpr ⟨_, hlist, h3mem⟩
      exact mem_le_foldl_max _ 0 hmem
    have h3o : (3 : Int) ≤ spec_overall cfg fH fA sel :=
      le_trans h3 (le_max_left _ _)
    refine ⟨h3o, ?_⟩
    unfold tier_of_score
    rw [if_pos h3o]

/-- Witness for C4: one waypoint, one in-window hour, and an active
"Winter Storm Warning"; the guards hold and the warning forces the
Severe tier. -/
theorem helana_C4_witness :
    3 ≤ spec_overall ⟨"East", [7], [15], [("A", "uA")], fun _ => some "47,-116"⟩
        (fun u => if u = "uA" then [⟨some ("D1", 7), some 55, some "", some "N", some true,
          RawVal.str "10 mph", RawVal.none, RawVal.none⟩] else [])
        (fun _ => ["Winter Storm Warning"]) "D1" ∧
    tier_of_score (spec_overall ⟨"East", [7], [15], [("A", "uA")], fun _ => some "47,-116"⟩
        (fun u => if u = "uA" then [⟨some ("D1", 7), some 55, some "", some "N", some true,
          RawVal.str "10 mph", RawVal.none, RawVal.none⟩] else [])
        (fun _ => ["Winter Storm Warning"]) "D1") = Tier.Severe ∧
    run_request ⟨"East", [7], [15], [("A", "uA")], fun _ => some "47,-116"⟩
        (fun u => if u = "uA" then [⟨some ("D1", 7), some 55, some "", some "N", some true,
          RawVal.str "10 mph", RawVal.none, RawVal.none⟩] else [])
        (fun _ => ["Winter Storm Warning"]) "D1"
      = some (spec_overall ⟨"East", [7], [15], [("A", "uA")], fun _ => some "47,-116"⟩
        (fun u => if u = "uA" then [⟨some ("D1", 7), some 55, some "", some "N", some true,
          RawVal.str "10 mph", RawVal.none, RawVal.none⟩] else [])
        (fun _ => ["Winter Storm Warning"]) "D1") := by
  have h := helana_C4_thm ⟨"East", [7], [15], [("A", "uA")], fun _ => some "47,-116"⟩
    (fun u => if u = "uA" then [⟨some ("D1", 7), some 55, some "", some "N", some true,
      RawVal.str "10 mph", RawVal.none, RawVal.none⟩] else [])
    (fun _ => ["Winter Storm Warning"]) "D1" "A" "uA" [] rfl (by decide) (by decide)
  have hw := h.2.2.1 ⟨("A", "uA"), by decide, "47,-116", rfl, "WINTER STORM WARNING",
    by decide, by decide⟩
  exact ⟨hw.1, hw.2, h.1⟩

/-! ### Claim C9: offline handling of missing feeds -/

/-- C9 (amended): availability is decided solely by the first
(reference) waypoint: the request yields the offline outcome exactly
when the reference feed is empty or has no parseable dates (or the
location table is empty); under the guards a verdict is always
produced, regardless of any other waypoint's feed being empty — those
waypoints are simply absent from the hourly aggregation. -/
theorem helana_C9_thm :
    (∀ (cfg : RouteCfg) (fH : String → List Obs) (fA : String → List String)
      (sel : String), cfg.locations = [] → run_request cfg fH fA sel = none) ∧
    (∀ (cfg : RouteCfg) (fH : String → List Obs) (fA : String → List String)
      (sel n0 u0 : String) (tl : List (String × String)),
      cfg.locations = (n0, u0) :: tl →
      (run_request cfg fH fA sel = none ↔
        fH u0 = [] ∨ unique_dates (fH u0) = [])) ∧
    (∀ (cfg : RouteCfg) (fH : String → List Obs) (fA : String → List String)
      (sel n0 u0 : String) (tl : List (String × String)),
      cfg.locations = (n0, u0) :: tl → fH u0 ≠ [] → unique_dates (fH u0) ≠ [] →
      ∃ o, run_request cfg fH fA sel = some o) := by
  refine ⟨fun cfg fH fA sel h => ?_, fun cfg fH fA sel n0 u0 tl hL => ?_,
    fun cfg fH fA sel n0 u0 tl hL h1 h2 => ?_⟩
  · unfold run_request
    rw [h]
  · unfold run_request
    rw [hL]
    dsimp only
    rcases hre : fH u0 with _ | ⟨r, rs⟩
    · simp
    · rcases hud : unique_dates (r :: rs) with _ | ⟨d, ds⟩
      · simp [hud]
      · simp [hud]
  · unfold run_request
    rw [hL]
    dsimp only
    rcases hre : fH u0 with _ | ⟨r, rs⟩
    · exact absurd hre h1
    · rw [hre] at h2
      rcases hud : unique_dates (r :: rs) with _ | ⟨d, ds⟩
      · exact absurd hud h2
      · exact ⟨_, rfl⟩

/-- Counterexample for C9 as frozen: the reference waypoint "A" has an
empty feed while waypoint "B" has data for the selected date, yet the
code terminates with the offline outcome and renders no verdict — the
claim demands offline only when no waypoint at all returns data. -/
theorem helana_C9_counterexample :
    run_request ⟨"East", [7], [15], [("A", "uA"), ("B", "uB")], fun _ => none⟩
        (fun u => if u = "uB" then [⟨some ("D1", 7), some 30, some "Snow", some "N",
          some true, RawVal.str "10 mph", RawVal.none, RawVal.none⟩] else [])
        (fun _ => []) "D1" = none ∧
    (fun u => if u = "uB" then [⟨some ("D1", 7), some 30, some "Snow", some "N",
        some true, RawVal.str "10 mph", RawVal.none, RawVal.none⟩] else ([] : List Obs)) "uB"
      ≠ [] ∧
    unique_dates ((fun u => if u = "uB" then [⟨some ("D1", 7), some 30, some "Snow",
        some "N", some true, RawVal.str "10 mph", RawVal.none, RawVal.none⟩]
      else ([] : List Obs)) "uB") = ["D1"] := by
  refine ⟨rfl, by decide, by decide⟩

/-- Witness for C9 (amended): with a healthy reference waypoint, an
empty feed at waypoint "B" still yields a verdict. -/
theorem helana_C9_witness :
    ∃ o, run_request ⟨"East", [7], [15], [("A", "uA"), ("B", "uB")], fun _ => none⟩
        (fun u => if u = "uA" then [⟨some ("D1", 7), some 30, some "Snow", some "N",
          some true, RawVal.str "10 mph", RawVal.none, RawVal.none⟩] else [])
        (fun _ => []) "D1" = some o :=
  helana_C9_thm.2.2 ⟨"East", [7], [15], [("A", "uA"), ("B", "uB")], fun _ => none⟩
    (fun u => if u = "uA" then [⟨some ("D1", 7), some 30, some "Snow", some "N",
      some true, RawVal.str "10 mph", RawVal.none, RawVal.none⟩] else [])
    (fun _ => []) "D1" "A" "uA" [("B", "uB")] rfl (by decide) (by decide)

/-! ### Claim C6: non-negativity and wind monotonicity -/

/-- C6: the risk score is non-negative, and raising the effective wind
of an observation while keeping every other field fixed never decreases
the score or the (ranked) status tier. -/
theorem helana_C6_thm (row row' : Obs) (name td od : String)
    (h1 : row'.startTime = row.startTime) (h2 : row'.temperature = row.temperature)
    (h3 : row'.shortForecast = row.shortForecast) (h4 : row'.windDirection = row.windDirection)
    (h5 : row'.isDaytime = row.isDaytime)
    (h6 : row'.probabilityOfPrecipitation = row.probabilityOfPrecipitation)
    (hw : effective_wind_of row ≤ effective_wind_of row') :
    0 ≤ (analyze_hour row name td od).risk_score ∧
    (analyze_hour row name td od).risk_score ≤ (analyze_hour row' name td od).risk_score ∧
    emoji_rank (analyze_hour row name td od).status
      ≤ emoji_rank (analyze_hour row' name td od).status := by
  have e1 := analyze_hour_risk_score row name td od
  have e2 := analyze_hour_risk_score row' name td od
  rw [h2, h3] at e2
  have hmono : (analyze_hour row name td od).risk_score
      ≤ (analyze_hour row' name td od).risk_score := by
    rw [e1, e2]
    have hwind := wind_rule_mono (py_lower (row.shortForecast.getD "")) hw
    have hcross := crosswind_rule_mono name hw
    have hchill := chill_rule_mono (row.temperature.getD 32) hw
    linarith
  refine ⟨?_, hmono, ?_⟩
  · rw [e1]
    have hr := road_rule_nonneg (py_lower (row.shortForecast.getD "")) (row.temperature.getD 32)
    have hwd := wind_rule_nonneg (effective_wind_of row) (py_lower (row.shortForecast.getD ""))
    have hc := crosswind_rule_nonneg name (effective_wind_of row)
    have hch := chill_rule_nonneg (row.temperature.getD 32) (effective_wind_of row)
    linarith
  · rw [analyze_hour_status, analyze_hour_status]
    exact emoji_rank_status_mono hmono

/-- Witness for C6: raising the wind from 25 to 50 mph with all other
fields fixed. -/
theorem helana_C6_witness :
    effective_wind_of ⟨none, some 30, some "", some "N", some true,
        RawVal.str "25 mph", RawVal.none, RawVal.none⟩
      ≤ effective_wind_of ⟨none, some 30, some "", some "N", some true,
          RawVal.str "50 mph", RawVal.none, RawVal.none⟩ ∧
    (analyze_hour ⟨none, some 30, some "", some "N", some true,
        RawVal.str "25 mph", RawVal.none, RawVal.none⟩ "McDonald Pass" "Out" "East").risk_score
      ≤ (analyze_hour ⟨none, some 30, some "", some "N", some true,
          RawVal.str "50 mph", RawVal.none, RawVal.none⟩ "McDonald Pass" "Out" "East").risk_score := by
  have h := helana_C6_thm
    ⟨none, some 30, some "", some "N", some true, RawVal.str "25 mph", RawVal.none, RawVal.none⟩
    ⟨none, some 30, some "", some "N", some true, RawVal.str "50 mph", RawVal.none, RawVal.none⟩
    "McDonald Pass" "Out" "East" rfl rfl rfl rfl rfl rfl (by decide)
  exact ⟨by decide, h.2.1⟩

/-! ### Claim C3: crosswind rule -/

lemma road_tags_ne_crosswind (sf : String) (t : Int) :
    "↔️ CROSSWIND" ∉ (road_rule sf t).2.1 := by
  unfold road_rule
  split_ifs <;> decide

lemma wind_tags_ne_crosswind (v : Nat) (sf : String) :
    "↔️ CROSSWIND" ∉ (wind_rule v sf).2.1 := by
  unfold wind_rule
  split_ifs <;> simp only [List.mem_singleton, List.not_mem_nil, not_false_eq_true] <;>
    first
      | decide
      | exact fun h => interp_ne _ _ _ _ '💨' _ rfl (by decide) h.symm

lemma chill_tags_ne_crosswind (t : Int) (v : Nat) :
    "↔️ CROSSWIND" ∉ (chill_rule t v).2.1 := by
  unfold chill_rule
  dsimp only
  split_ifs <;> simp only [List.mem_singleton, List.not_mem_nil, not_false_eq_true]
  exact fun h => interp_ne _ _ _ _ '🥶' _ rfl (by decide) h.symm

lemma glare_tags_ne_crosswind (st : Option (String × Nat)) (sf td od : String) :
    "↔️ CROSSWIND" ∉ glare_rule st sf td od := by
  rcases st with _ | ⟨d, hr⟩
  · simp [glare_rule]
  · unfold glare_rule
    dsimp only
    split_ifs <;> decide

/-- C3 (amended): the crosswind tag is added exactly when the waypoint
name is one of the hard-coded crosswind-sensitive names and the
effective wind exceeds 25 mph, and it then contributes exactly +1; the
observation's wind compass direction plays no role. -/
theorem helana_C3_thm (row : Obs) (name td od : String) :
    ("↔️ CROSSWIND" ∈ (analyze_hour row name td od).alert_list
      ↔ ((occurs_str "McDonald" name || occurs_str "Pullman" name
          || occurs_str "Lewiston" name || occurs_str "Polson" name)
          ∧ 25 < effective_wind_of row)) ∧
    ((analyze_hour row name td od).risk_score
      = (road_rule (py_lower (row.shortForecast.getD "")) (row.temperature.getD 32)).1
        + (wind_rule (effective_wind_of row) (py_lower (row.shortForecast.getD ""))).1
        + (if (occurs_str "McDonald" name || occurs_str "Pullman" name
            || occurs_str "Lewiston" name || occurs_str "Polson" name)
            ∧ 25 < effective_wind_of row then 1 else 0)
        + (chill_rule (row.temperature.getD 32) (effective_wind_of row)).1) := by
  constructor
  · rw [analyze_hour_alert_list]
    simp only [List.mem_append]
    constructor
    · rintro ((((hr | hw) | hc) | hg) | hch)
      · exact absurd hr (road_tags_ne_crosswind _ _)
      · exact absurd hw (wind_tags_ne_crosswind _ _)
      · unfold crosswind_rule at hc
        by_cases hcond : (occurs_str "McDonald" name || occurs_str "Pullman" name
            || occurs_str "Lewiston" name || occurs_str "Polson" name)
            ∧ 25 < effective_wind_of row
        · exact hcond
        · rw [if_neg hcond] at hc
          exact absurd hc (List.not_mem_nil _)
      · exact absurd hg (glare_tags_ne_crosswind _ _ _ _)
      · exact absurd hch (chill_tags_ne_crosswind _ _)
    · intro hcond
      refine Or.inl (Or.inl (Or.inr ?_))
      unfold crosswind_rule
      rw [if_pos hcond]
      exact List.mem_singleton.mpr rfl
  · rw [analyze_hour_risk_score]
    have hc : (crosswind_rule name (effective_wind_of row)).1
        = if (occurs_str "McDonald" name || occurs_str "Pullman" name
            || occurs_str "Lewiston" name || occurs_str "Polson" name)
            ∧ 25 < effective_wind_of row then (1 : Int) else 0 := by
      unfold crosswind_rule
      split_ifs <;> rfl
    rw [hc]

/-- Counterexample for C3 as frozen: at the crosswind-sensitive
waypoint "McDonald Pass" with effective wind 30 mph and wind direction
"E" — not in the claimed perpendicular-alignment set — the code still
adds the crosswind tag and its +1 (total score 2: windy +1 and
crosswind +1). -/
theorem helana_C3_counterexample :
    (⟨none, some 55, some "", some "E", some true, RawVal.str "30 mph",
        RawVal.none, RawVal.none⟩ : Obs).windDirection = some "E" ∧
    "E" ∉ ["N", "NNE", "NNW", "S", "SSE", "SSW"] ∧
    "↔️ CROSSWIND" ∈ (analyze_hour ⟨none, some 55, some "", some "E", some true,
        RawVal.str "30 mph", RawVal.none, RawVal.none⟩ "McDonald Pass" "Out" "East").alert_list ∧
    (analyze_hour ⟨none, some 55, some "", some "E", some true,
        RawVal.str "30 mph", RawVal.none, RawVal.none⟩ "McDonald Pass" "Out" "East").risk_score = 2 := by
  refine ⟨rfl, by decide, ?_, ?_⟩
  · rw [analyze_hour_alert_list]
    apply List.mem_append_left
    apply List.mem_append_left
    apply List.mem_append_right
    decide
  · rw [analyze_hour_risk_score]
    rw [chill_rule_warm _ _ (by decide :
      (50 : Int) < ((⟨none, some 55, some "", some "E", some true, RawVal.str "30 mph",
        RawVal.none, RawVal.none⟩ : Obs).temperature.getD 32))]
    decide

end Helana
